import Mathlib

/-!
Verification of the persistence services of the Monitor_Prototype repository:
`ConfigService` (src/monitor/services/config_service.py),
`AlertDatabase` (src/monitor/services/alert_db.py) and
`ContactDatabase` (src/monitor/services/contact_db.py).

The services are embedded shallowly: the in-memory config dictionary and the
two SQLite tables become explicit functional state, each Python method becomes
a Lean function on that state, and environment-dependent outcomes (lock
acquisition, file contents) become explicit inputs.
-/

namespace Monitor

/-! ## ConfigService -/

/-- Primitive JSON value stored in the config tree (the spec's data model:
"value is a primitive (string, bool)"; numbers and null are included since
`json.load` can produce them). -/
inductive ConfigValue where
  | str (s : String)
  | bool (b : Bool)
  | num (n : Int)
  | null
deriving DecidableEq, Repr

/-- A section of the config: a Python dict from key to value, modelled as an
insertion-ordered association list. -/
abbrev ConfigSection := List (String × ConfigValue)

/-- The whole config tree: a Python dict from section name to section. -/
abbrev Config := List (String × ConfigSection)

/-- Python `dict.get(k)` on an association list: first binding for the key. -/
def dictGet? {α : Type} : List (String × α) → String → Option α
  | [], _ => none
  | (k', v) :: rest, k => if k' = k then some v else dictGet? rest k

/-- Python `d[k] = v`: update the binding in place if the key is present,
otherwise append it (Python dicts keep insertion order). -/
def dictSet {α : Type} : List (String × α) → String → α → List (String × α)
  | [], k, v => [(k, v)]
  | (k', v') :: rest, k, v =>
      if k' = k then (k, v) :: rest else (k', v') :: dictSet rest k v

/-- Embeds `ConfigService.get` (config_service.py lines 66-73), the body of
the critical section: `self._config.get(section, {}).get(key, default)`. -/
def ConfigService.get (cfg : Config) (sect key : String) (default : ConfigValue) :
    ConfigValue :=
  (dictGet? ((dictGet? cfg sect).getD []) key).getD default

/-- Mutation of the section dict in place: `self._config[section][key] = value`
updates the one binding whose name matches the section. -/
def updateSection : Config → String → String → ConfigValue → Config
  | [], _, _, _ => []
  | (n, s) :: rest, sect, key, v =>
      if n = sect then (n, dictSet s key v) :: rest
      else (n, s) :: updateSection rest sect key v

/-- Embeds `ConfigService.set` (config_service.py lines 75-84), the body of
the critical section: `if section not in self._config: self._config[section] = {}`
followed by `self._config[section][key] = value` (the subsequent `save()` only
writes the same tree to disk and does not change the in-memory state). -/
def ConfigService.set (cfg : Config) (sect key : String) (value : ConfigValue) :
    Config :=
  let cfg1 := if (dictGet? cfg sect).isSome then cfg else dictSet cfg sect []
  updateSection cfg1 sect key value

/-- Failure raised by `ConfigService._acquire_lock` (config_service.py lines
20-25): a `TimeoutError` when the re-entrant lock is not acquired within the
timeout. -/
inductive ConfigError where
  | lockTimeout
deriving DecidableEq, Repr

/-- Embeds `ConfigService.get` including its call to `_acquire_lock`
(config_service.py lines 66-73 and 20-25). Whether the lock is acquired
within the timeout depends on other threads, so it is an explicit input:
when acquisition fails, `_acquire_lock` raises `TimeoutError`, which
propagates out of `get`; otherwise the body runs and returns normally. -/
def ConfigService.getLocked (lockAcquired : Bool) (cfg : Config)
    (sect key : String) (default : ConfigValue) : Except ConfigError ConfigValue :=
  if lockAcquired then Except.ok (ConfigService.get cfg sect key default)
  else Except.error ConfigError.lockTimeout

/-- Presence of a stored value: the section is present and the key is bound
inside it. -/
def storedValue? (cfg : Config) (sect key : String) : Option ConfigValue :=
  (dictGet? cfg sect).bind (fun s => dictGet? s key)

/-- Embeds `ConfigService._default_config` (config_service.py lines 47-52):
the hard-coded default tree. -/
def ConfigService.default_config : Config :=
  [("general", [("location_name", ConfigValue.str ""),
                ("monitor_program_path", ConfigValue.str "")]),
   ("system", [("enable_restart", ConfigValue.bool false),
               ("minutes_to_restart", ConfigValue.str ""),
               ("startup_snooze_time", ConfigValue.str "")]),
   ("devices", [("relay_fail_threshold", ConfigValue.str ""),
                ("camera_fail_threshold", ConfigValue.str ""),
                ("camera_log_minutes", ConfigValue.str "")])]

/-- State of the backing config file as `_load` observes it: `none` when
`self._config_path.exists()` is false, `some (Except.error e)` when opening
or `json.load` raises, `some (Except.ok c)` when the file parses. -/
abbrev FileState := Option (Except String Config)

/-- Embeds `ConfigService._load` (config_service.py lines 30-45): a parsed
file is loaded as-is; a missing file takes the `else` branch and a
read/parse exception is caught by `except Exception`, both installing
`_default_config`. The function is total: no exception escapes. -/
def ConfigService.load (file : FileState) : Config :=
  match file with
  | some (Except.ok parsed) => parsed
  | some (Except.error _) => ConfigService.default_config
  | none => ConfigService.default_config

/-! ## AlertDatabase -/

/-- Modelled from the spec: the `AlertType` enum of
`monitor/services/alert_models.py`, a file absent from the sources; the spec
data model gives `type: enum{sprinkler, fan, camera, software}`. -/
inductive AlertType where
  | sprinkler
  | fan
  | camera
  | software
deriving DecidableEq, Repr

/-- Modelled from the spec: `.value` of the Python enum member, the TEXT
stored in the `alert_type` column. -/
def AlertType.value : AlertType → String
  | .sprinkler => "sprinkler"
  | .fan => "fan"
  | .camera => "camera"
  | .software => "software"

/-- Modelled from the spec: the `Alert` record of
`monitor/services/alert_models.py` (absent from the sources); the spec data
model gives `{id: string, type: enum, description: string, timestamp:
datetime, resolved: bool}`. The timestamp is modelled by its ISO-8601 string
(`datetime.isoformat`), which is what the database stores and orders by; the
`resolved` field lives in the table row, not in this input record. -/
structure Alert where
  id : String
  alert_type : AlertType
  description : String
  timestamp : String
deriving DecidableEq, Repr

/-- Row of the `alerts` table (alert_db.py lines 26-34): `id TEXT PRIMARY
KEY, alert_type TEXT, description TEXT, timestamp TEXT, resolved INTEGER
0/1`. -/
structure AlertRow where
  id : String
  alert_type : String
  description : String
  timestamp : String
  resolved : Bool
deriving DecidableEq, Repr

/-- State of the `alerts` table. Row order in the list is the table's
physical order; every query sorts, so it only affects tie-breaking. -/
abbrev AlertDB := List AlertRow

/-- Lookup of the row keyed by the primary key `id`. -/
def findRow : AlertDB → String → Option AlertRow
  | [], _ => none
  | r :: rest, i => if r.id = i then some r else findRow rest i

/-- Embeds `AlertDatabase.add_alert` (alert_db.py lines 36-50): `INSERT OR
REPLACE INTO alerts (id, alert_type, description, timestamp, resolved)
VALUES (?, ?, ?, ?, 0)` — any row with the same primary key is removed and
the new row, with `resolved = 0`, inserted; the method then returns True
(the `except` branch returns False only on an I/O-level failure of the
embedded engine, which the functional model does not produce). -/
def AlertDatabase.add_alert (db : AlertDB) (a : Alert) : Bool × AlertDB :=
  (true,
   db.filter (fun r => decide (r.id ≠ a.id)) ++
     [{ id := a.id, alert_type := a.alert_type.value,
        description := a.description, timestamp := a.timestamp,
        resolved := false }])

/-- Effect of `UPDATE alerts SET resolved = 1 WHERE id = ?` on one row. -/
def resolveRow (alert_id : String) (r : AlertRow) : AlertRow :=
  if r.id = alert_id then { r with resolved := true } else r

/-- Embeds `AlertDatabase.resolve_alert` (alert_db.py lines 74-89): `UPDATE
alerts SET resolved = 1 WHERE id = ?`, returning `cursor.rowcount > 0`,
i.e. whether any row matched the WHERE clause (sqlite counts matched rows
even when the stored value is unchanged). -/
def AlertDatabase.resolve_alert (db : AlertDB) (alert_id : String) :
    Bool × AlertDB :=
  (db.any (fun r => decide (r.id = alert_id)),
   db.map (resolveRow alert_id))

/-- Descending timestamp order used by `ORDER BY timestamp DESC`: row `a`
may precede row `b` when `b`'s timestamp is at most `a`'s. -/
def tsGe (a b : AlertRow) : Prop := b.timestamp ≤ a.timestamp

instance : DecidableRel tsGe := fun a b =>
  inferInstanceAs (Decidable (b.timestamp ≤ a.timestamp))

instance : IsTotal AlertRow tsGe := ⟨fun a b => le_total b.timestamp a.timestamp⟩

instance : IsTrans AlertRow tsGe := ⟨fun _ _ _ hab hbc => le_trans hbc hab⟩

/-- Embeds `AlertDatabase.get_active_alerts` (alert_db.py lines 52-72):
`SELECT id, alert_type, description, timestamp FROM alerts WHERE resolved = 0
ORDER BY timestamp DESC`. The model returns the matching rows in result
order; the Python code then builds one `Alert` per row from the four
selected columns. -/
def AlertDatabase.get_active_alerts (db : AlertDB) : List AlertRow :=
  List.insertionSort tsGe (db.filter (fun r => decide (r.resolved = false)))

/-- Embeds `AlertDatabase.get_all_alerts` (alert_db.py lines 91-111): the
same query without the `resolved` filter. -/
def AlertDatabase.get_all_alerts (db : AlertDB) : List AlertRow :=
  List.insertionSort tsGe db

/-- One exposed `AlertDatabase` operation, for stating temporal properties
over operation sequences. -/
inductive AlertOp where
  | add (a : Alert)
  | resolve (alert_id : String)
  | getActive
  | getAll
deriving DecidableEq, Repr

/-- Effect of one exposed operation on the table state (the two queries do
not write). -/
def AlertDatabase.step (db : AlertDB) : AlertOp → AlertDB
  | .add a => (AlertDatabase.add_alert db a).2
  | .resolve i => (AlertDatabase.resolve_alert db i).2
  | .getActive => db
  | .getAll => db

/-- State after a sequence of exposed operations. -/
def AlertDatabase.run (db : AlertDB) (ops : List AlertOp) : AlertDB :=
  ops.foldl AlertDatabase.step db

/-! ## ContactDatabase -/

/-- One of the two contact tables (contact_db.py lines 24-35): `id INTEGER
PRIMARY KEY AUTOINCREMENT, value TEXT UNIQUE NOT NULL`. `nextId` is the
autoincrement counter. -/
structure ContactTable where
  rows : List (Nat × String)
  nextId : Nat
deriving DecidableEq, Repr

/-- State of the contact database: the `emails` and `phones` tables. -/
structure ContactDB where
  emails : ContactTable
  phones : ContactTable
deriving DecidableEq, Repr

/-- Shared body of `add_email`/`add_phone`: `INSERT INTO table (value)
VALUES (?)` under the UNIQUE constraint — a duplicate value raises
`sqlite3.IntegrityError`, caught and turned into False with the table
untouched; otherwise the row is inserted with the next autoincrement id and
True returned. -/
def ContactTable.insertUnique (t : ContactTable) (v : String) :
    Bool × ContactTable :=
  if t.rows.any (fun p => decide (p.2 = v)) then (false, t)
  else (true, { rows := t.rows ++ [(t.nextId, v)], nextId := t.nextId + 1 })

/-- Embeds `ContactDatabase.add_email` (contact_db.py lines 37-49). -/
def ContactDatabase.add_email (db : ContactDB) (email : String) :
    Bool × ContactDB :=
  ((db.emails.insertUnique email).1,
   { db with emails := (db.emails.insertUnique email).2 })

/-- Embeds `ContactDatabase.add_phone` (contact_db.py lines 51-63). -/
def ContactDatabase.add_phone (db : ContactDB) (phone : String) :
    Bool × ContactDB :=
  ((db.phones.insertUnique phone).1,
   { db with phones := (db.phones.insertUnique phone).2 })

end Monitor

namespace Monitor

theorem dictGet?_dictSet {α : Type} (l : List (String × α)) (k : String) (v : α) :
    dictGet? (dictSet l k v) k = some v := by
  induction l with
  | nil => simp [dictSet, dictGet?]
  | cons p rest ih =>
      obtain ⟨k', v'⟩ := p
      by_cases h : k' = k
      · simp [dictSet, h, dictGet?]
      · simp [dictSet, h, dictGet?, ih]

theorem dictGet?_updateSection (cfg : Config) (sect key : String)
    (v : ConfigValue) :
    dictGet? (updateSection cfg sect key v) sect =
      (dictGet? cfg sect).map (fun s => dictSet s key v) := by
  induction cfg with
  | nil => simp [updateSection, dictGet?]
  | cons p rest ih =>
      obtain ⟨n, s⟩ := p
      by_cases h : n = sect
      · simp [updateSection, h, dictGet?]
      · simp [updateSection, h, dictGet?, ih]

theorem dictGet?_set_isSome (cfg : Config) (sect : String) :
    (dictGet? (if (dictGet? cfg sect).isSome then cfg else dictSet cfg sect [])
      sect).isSome := by
  by_cases h : (dictGet? cfg sect).isSome
  · simp [h]
  · simp [h, dictGet?_dictSet]

/-- C1: for every section string, key string and value, `ConfigService.set`
followed by `ConfigService.get` on the same service returns exactly that
value, for any default. -/
theorem C1_set_then_get (cfg : Config) (sect key : String)
    (value default : ConfigValue) :
    ConfigService.get (ConfigService.set cfg sect key value) sect key default
      = value := by
  unfold ConfigService.set ConfigService.get
  set cfg1 := if (dictGet? cfg sect).isSome then cfg else dictSet cfg sect []
    with hcfg1
  have hsome : (dictGet? cfg1 sect).isSome := by
    rw [hcfg1]; exact dictGet?_set_isSome cfg sect
  obtain ⟨s0, hs0⟩ := Option.isSome_iff_exists.mp hsome
  rw [dictGet?_updateSection cfg1 sect key value, hs0]
  simp [dictGet?_dictSet]

/-- C4 counterexample: `ConfigService.get` is not failure-free as the claim
states — when `_acquire_lock` does not obtain the lock within the timeout it
raises `TimeoutError`, which propagates to the caller of `get`. -/
theorem C4_counterexample_lock_timeout :
    ConfigService.getLocked false [] "general" "location_name" ConfigValue.null
      = Except.error ConfigError.lockTimeout := rfl

/-- C4 (amended): provided the config lock is acquired within the timeout,
`get` returns the stored value when the section and key are present, returns
the supplied default when either is absent, and raises no exception. -/
theorem C4_get_ok (cfg : Config) (sect key : String) (default : ConfigValue) :
    (∀ v, storedValue? cfg sect key = some v →
        ConfigService.getLocked true cfg sect key default = Except.ok v) ∧
    (storedValue? cfg sect key = none →
        ConfigService.getLocked true cfg sect key default = Except.ok default) := by
  cases h : dictGet? cfg sect with
  | none =>
      refine ⟨fun v hv => ?_, fun _ => ?_⟩
      · simp [storedValue?, h] at hv
      · simp [ConfigService.getLocked, ConfigService.get, h, dictGet?]
  | some s =>
      refine ⟨fun v hv => ?_, fun hn => ?_⟩
      · simp [storedValue?, h] at hv
        simp [ConfigService.getLocked, ConfigService.get, h, hv]
      · simp [storedValue?, h] at hn
        simp [ConfigService.getLocked, ConfigService.get, h, hn]

/-- C4 witness: the amended theorem evaluated at a present key and at an
absent key. -/
theorem C4_get_ok_witness :
    ConfigService.getLocked true
        [("general", [("location_name", ConfigValue.str "x")])]
        "general" "location_name" ConfigValue.null
      = Except.ok (ConfigValue.str "x") ∧
    ConfigService.getLocked true [] "general" "location_name"
        (ConfigValue.str "d")
      = Except.ok (ConfigValue.str "d") :=
  ⟨(C4_get_ok _ _ _ _).1 _ (by decide), (C4_get_ok _ _ _ _).2 (by decide)⟩

/-- C9: at construction, a missing backing file and a failed read/parse both
install the hard-coded default tree with no exception escaping (`load` is a
total function), and a successfully parsed file is loaded as-is. -/
theorem C9_load_fallback (file : FileState) :
    (file = none → ConfigService.load file = ConfigService.default_config) ∧
    (∀ e, file = some (Except.error e) →
        ConfigService.load file = ConfigService.default_config) ∧
    (∀ c, file = some (Except.ok c) → ConfigService.load file = c) :=
  ⟨fun h => by rw [h]; rfl,
   fun e h => by rw [h]; rfl,
   fun c h => by rw [h]; rfl⟩

/-- C9 witness: the theorem evaluated on a missing file. -/
theorem C9_load_fallback_witness :
    ConfigService.load none = ConfigService.default_config :=
  (C9_load_fallback none).1 rfl

theorem findRow_id {db : AlertDB} {i : String} {r : AlertRow}
    (h : findRow db i = some r) : r.id = i := by
  induction db with
  | nil => simp [findRow] at h
  | cons r0 rest ih =>
      unfold findRow at h
      by_cases h0 : r0.id = i
      · simp [h0] at h; rw [← h]; exact h0
      · simp [h0] at h; exact ih h

theorem findRow_mem {db : AlertDB} {i : String} {r : AlertRow}
    (h : findRow db i = some r) : r ∈ db := by
  induction db with
  | nil => simp [findRow] at h
  | cons r0 rest ih =>
      unfold findRow at h
      by_cases h0 : r0.id = i
      · simp [h0] at h; simp [← h]
      · simp [h0] at h; exact List.mem_cons_of_mem _ (ih h)

theorem findRow_append_left {l1 : AlertDB} (l2 : AlertDB) {i : String}
    {r : AlertRow} (h : findRow l1 i = some r) :
    findRow (l1 ++ l2) i = some r := by
  induction l1 with
  | nil => simp [findRow] at h
  | cons r0 rest ih =>
      unfold findRow at h ⊢
      by_cases h0 : r0.id = i
      · simpa [h0] using h
      · simp [h0] at h ⊢; exact ih h

theorem findRow_append_none {l1 : AlertDB} (l2 : AlertDB) {i : String}
    (h : findRow l1 i = none) : findRow (l1 ++ l2) i = findRow l2 i := by
  induction l1 with
  | nil => rfl
  | cons r0 rest ih =>
      unfold findRow at h
      by_cases h0 : r0.id = i
      · simp [h0] at h
      · simp [h0] at h
        simp only [List.cons_append, findRow]
        rw [if_neg h0]
        exact ih h

theorem findRow_of_forall_ne {l : AlertDB} {i : String}
    (h : ∀ r ∈ l, r.id ≠ i) : findRow l i = none := by
  induction l with
  | nil => rfl
  | cons r0 rest ih =>
      unfold findRow
      rw [if_neg (h r0 (List.mem_cons_self r0 rest))]
      exact ih (fun r hr => h r (List.mem_cons_of_mem _ hr))

theorem findRow_filter_out {db : AlertDB} {i j : String} (hij : i ≠ j) :
    findRow (db.filter (fun r => decide (r.id ≠ j))) i = findRow db i := by
  induction db with
  | nil => rfl
  | cons r0 rest ih =>
      by_cases hk : r0.id = j
      · have hne : ¬r0.id = i := fun hc => hij (by rw [← hc, hk])
        rw [List.filter_cons_of_neg (by simp [hk])]
        simp only [findRow]
        rw [if_neg hne]
        exact ih
      · rw [List.filter_cons_of_pos (by simp [hk])]
        simp only [findRow]
        by_cases h0 : r0.id = i
        · simp only [if_pos h0]
        · simp only [if_neg h0]; exact ih

theorem findRow_map_id_preserving {db : AlertDB} {i : String}
    (f : AlertRow → AlertRow) (hf : ∀ r, (f r).id = r.id) :
    findRow (db.map f) i = (findRow db i).map f := by
  induction db with
  | nil => rfl
  | cons r0 rest ih =>
      unfold findRow
      by_cases h0 : r0.id = i
      · simp [hf, h0]
      · simp [hf, h0, ih]

theorem resolveRow_id (alert_id : String) (r : AlertRow) :
    (resolveRow alert_id r).id = r.id := by
  unfold resolveRow
  by_cases h : r.id = alert_id <;> simp [h]

theorem resolveRow_idem (alert_id : String) (r : AlertRow) :
    resolveRow alert_id (resolveRow alert_id r) = resolveRow alert_id r := by
  unfold resolveRow
  by_cases h : r.id = alert_id <;> simp [h]

/-- C2: adding an alert whose id already exists replaces the stored row's
type, description and timestamp with the new alert's fields, resets the
row's resolved flag to false, returns true, and leaves every other row
unchanged. -/
theorem C2_add_alert_upsert (db : AlertDB) (a : Alert)
    (_hex : (findRow db a.id).isSome) :
    (AlertDatabase.add_alert db a).1 = true ∧
    findRow (AlertDatabase.add_alert db a).2 a.id =
      some { id := a.id, alert_type := a.alert_type.value,
             description := a.description, timestamp := a.timestamp,
             resolved := false } ∧
    (AlertDatabase.add_alert db a).2.filter (fun r => decide (r.id ≠ a.id)) =
      db.filter (fun r => decide (r.id ≠ a.id)) := by
  refine ⟨rfl, ?_, ?_⟩
  · unfold AlertDatabase.add_alert
    have hnone : findRow (db.filter (fun r => decide (r.id ≠ a.id))) a.id = none := by
      apply findRow_of_forall_ne
      intro r hr
      have := (List.mem_filter.mp hr).2
      simpa using this
    rw [findRow_append_none _ hnone]
    simp [findRow]
  · unfold AlertDatabase.add_alert
    rw [List.filter_append, List.filter_filter]
    simp

/-- C2 witness: the theorem evaluated on a store holding a resolved row with
the same id. -/
theorem C2_add_alert_upsert_witness :
    (AlertDatabase.add_alert
        [{ id := "a1", alert_type := "fan", description := "old",
           timestamp := "t1", resolved := true }]
        { id := "a1", alert_type := AlertType.camera, description := "new",
          timestamp := "t2" }).1 = true ∧
    findRow (AlertDatabase.add_alert
        [{ id := "a1", alert_type := "fan", description := "old",
           timestamp := "t1", resolved := true }]
        { id := "a1", alert_type := AlertType.camera, description := "new",
          timestamp := "t2" }).2 "a1" =
      some { id := "a1", alert_type := "camera", description := "new",
             timestamp := "t2", resolved := false } ∧
    (AlertDatabase.add_alert
        [{ id := "a1", alert_type := "fan", description := "old",
           timestamp := "t1", resolved := true }]
        { id := "a1", alert_type := AlertType.camera, description := "new",
          timestamp := "t2" }).2.filter (fun r => decide (r.id ≠ "a1")) =
      [({ id := "a1", alert_type := "fan", description := "old",
          timestamp := "t1", resolved := true } : AlertRow)].filter
        (fun r => decide (r.id ≠ "a1")) :=
  C2_add_alert_upsert _ _ (by decide)

/-- C5: every alert returned by `get_active_alerts` has its stored resolved
flag false and is also returned by `get_all_alerts`. -/
theorem C5_active_unresolved_and_subset (db : AlertDB) (r : AlertRow)
    (h : r ∈ AlertDatabase.get_active_alerts db) :
    r.resolved = false ∧ r ∈ AlertDatabase.get_all_alerts db := by
  unfold AlertDatabase.get_active_alerts at h
  rw [List.mem_insertionSort] at h
  rw [List.mem_filter] at h
  refine ⟨by simpa using h.2, ?_⟩
  unfold AlertDatabase.get_all_alerts
  rw [List.mem_insertionSort]
  exact h.1

/-- C5 witness: the theorem evaluated on a one-row store. -/
theorem C5_active_unresolved_and_subset_witness :
    ({ id := "a1", alert_type := "fan", description := "d",
       timestamp := "t0", resolved := false } : AlertRow).resolved = false ∧
    ({ id := "a1", alert_type := "fan", description := "d",
       timestamp := "t0", resolved := false } : AlertRow) ∈
      AlertDatabase.get_all_alerts
        [{ id := "a1", alert_type := "fan", description := "d",
           timestamp := "t0", resolved := false }] :=
  C5_active_unresolved_and_subset _ _ (by decide)

/-- C6: resolving an id with no matching row returns false and leaves the
store unchanged. -/
theorem C6_resolve_missing_id (db : AlertDB) (alert_id : String)
    (h : findRow db alert_id = none) :
    AlertDatabase.resolve_alert db alert_id = (false, db) := by
  induction db with
  | nil => rfl
  | cons r0 rest ih =>
      unfold findRow at h
      by_cases h0 : r0.id = alert_id
      · simp [h0] at h
      · simp [h0] at h
        have hrest := ih h
        unfold AlertDatabase.resolve_alert at hrest ⊢
        rw [Prod.ext_iff] at hrest ⊢
        obtain ⟨h1, h2⟩ := hrest
        refine ⟨?_, ?_⟩
        · simpa [h0] using h1
        · simpa [resolveRow, h0] using h2

/-- C6 witness: the theorem evaluated on a one-row store and an absent id. -/
theorem C6_resolve_missing_id_witness :
    AlertDatabase.resolve_alert
        [{ id := "a1", alert_type := "fan", description := "d",
           timestamp := "t0", resolved := false }] "zzz" =
      (false, [{ id := "a1", alert_type := "fan", description := "d",
                 timestamp := "t0", resolved := false }]) :=
  C6_resolve_missing_id _ _ (by decide)

/-- C8: both query results are ordered by timestamp descending — each row's
timestamp is at least every later row's timestamp (newest, i.e. largest
ISO-8601 string, first). -/
theorem C8_queries_sorted_desc (db : AlertDB) :
    List.Sorted tsGe (AlertDatabase.get_active_alerts db) ∧
    List.Sorted tsGe (AlertDatabase.get_all_alerts db) :=
  ⟨List.sorted_insertionSort tsGe _, List.sorted_insertionSort tsGe _⟩

theorem map_resolveRow_idem (alert_id : String) (l : AlertDB) :
    (l.map (resolveRow alert_id)).map (resolveRow alert_id) =
      l.map (resolveRow alert_id) := by
  induction l with
  | nil => rfl
  | cons r rest ih => simp only [List.map_cons, resolveRow_idem, ih]

/-- C10: on a store containing the id, `resolve_alert` returns true, a
second call on the resulting store also returns true, and the second call
leaves the store exactly as the first call left it. -/
theorem C10_resolve_idempotent (db : AlertDB) (alert_id : String)
    (h : (findRow db alert_id).isSome) :
    (AlertDatabase.resolve_alert db alert_id).1 = true ∧
    (AlertDatabase.resolve_alert
        (AlertDatabase.resolve_alert db alert_id).2 alert_id).1 = true ∧
    (AlertDatabase.resolve_alert
        (AlertDatabase.resolve_alert db alert_id).2 alert_id).2 =
      (AlertDatabase.resolve_alert db alert_id).2 := by
  obtain ⟨r, hr⟩ := Option.isSome_iff_exists.mp h
  have hmem : r ∈ db := findRow_mem hr
  have hid : r.id = alert_id := findRow_id hr
  refine ⟨?_, ?_, ?_⟩
  · unfold AlertDatabase.resolve_alert
    rw [List.any_eq_true]
    exact ⟨r, hmem, by simp [hid]⟩
  · unfold AlertDatabase.resolve_alert
    rw [List.any_eq_true]
    refine ⟨resolveRow alert_id r, List.mem_map_of_mem _ hmem, ?_⟩
    simp [resolveRow_id, hid]
  · unfold AlertDatabase.resolve_alert
    exact map_resolveRow_idem alert_id db

/-- C10 witness: the theorem evaluated on a one-row store. -/
theorem C10_resolve_idempotent_witness :
    (AlertDatabase.resolve_alert
        [{ id := "a1", alert_type := "fan", description := "d",
           timestamp := "t0", resolved := false }] "a1").1 = true ∧
    (AlertDatabase.resolve_alert
        (AlertDatabase.resolve_alert
          [{ id := "a1", alert_type := "fan", description := "d",
             timestamp := "t0", resolved := false }] "a1").2 "a1").1 = true ∧
    (AlertDatabase.resolve_alert
        (AlertDatabase.resolve_alert
          [{ id := "a1", alert_type := "fan", description := "d",
             timestamp := "t0", resolved := false }] "a1").2 "a1").2 =
      (AlertDatabase.resolve_alert
        [{ id := "a1", alert_type := "fan", description := "d",
           timestamp := "t0", resolved := false }] "a1").2 :=
  C10_resolve_idempotent _ _ (by decide)

/-- C3 counterexample: a store whose row "a1" is resolved, followed by one
exposed operation — `add_alert` with the same id — ends with that row's
resolved flag false again, so the resolved flag is not one-directional over
the exposed operations. -/
theorem C3_counterexample_add_unresolves :
    findRow [({ id := "a1", alert_type := "fan", description := "d",
                timestamp := "t1", resolved := true } : AlertRow)] "a1" =
      some { id := "a1", alert_type := "fan", description := "d",
             timestamp := "t1", resolved := true } ∧
    findRow (AlertDatabase.step
        [{ id := "a1", alert_type := "fan", description := "d",
           timestamp := "t1", resolved := true }]
        (AlertOp.add { id := "a1", alert_type := AlertType.fan,
                       description := "d2", timestamp := "t2" })) "a1" =
      some { id := "a1", alert_type := "fan", description := "d2",
             timestamp := "t2", resolved := false } := by
  constructor <;> rfl

theorem step_preserves_resolved (db : AlertDB) (op : AlertOp)
    (alert_id : String) (r : AlertRow)
    (hfind : findRow db alert_id = some r) (hres : r.resolved = true)
    (hop : ∀ a, op = AlertOp.add a → a.id ≠ alert_id) :
    ∃ r', findRow (AlertDatabase.step db op) alert_id = some r' ∧
      r'.resolved = true := by
  cases op with
  | add a =>
      have hne : a.id ≠ alert_id := hop a rfl
      refine ⟨r, ?_, hres⟩
      unfold AlertDatabase.step AlertDatabase.add_alert
      have h1 : findRow (db.filter (fun q => decide (q.id ≠ a.id))) alert_id
          = some r := by
        rw [findRow_filter_out (Ne.symm hne)]
        exact hfind
      exact findRow_append_left _ h1
  | resolve i =>
      refine ⟨resolveRow i r, ?_, ?_⟩
      · unfold AlertDatabase.step AlertDatabase.resolve_alert
        rw [findRow_map_id_preserving (resolveRow i) (resolveRow_id i), hfind]
        rfl
      · unfold resolveRow
        by_cases hri : r.id = i <;> simp [hri, hres]
  | getActive => exact ⟨r, hfind, hres⟩
  | getAll => exact ⟨r, hfind, hres⟩

/-- C3 (amended): the resolved flag is one-directional over every sequence
of exposed operations that contains no `add_alert` with the resolved row's
id — once resolved, the row stays resolved under `resolve_alert`,
`get_active_alerts` and `get_all_alerts`, and under `add_alert` with any
other id; `add_alert` with the same id is the one exposed un-resolve. -/
theorem C3_amended_no_unresolve (db : AlertDB) (ops : List AlertOp)
    (alert_id : String) (r : AlertRow)
    (hfind : findRow db alert_id = some r) (hres : r.resolved = true)
    (hops : ∀ a, AlertOp.add a ∈ ops → a.id ≠ alert_id) :
    ∃ r', findRow (AlertDatabase.run db ops) alert_id = some r' ∧
      r'.resolved = true := by
  induction ops generalizing db r with
  | nil => exact ⟨r, hfind, hres⟩
  | cons op rest ih =>
      obtain ⟨r1, hf1, hr1⟩ := step_preserves_resolved db op alert_id r hfind
        hres (fun a ha => hops a (by rw [← ha]; exact List.mem_cons_self op rest))
      exact ih (AlertDatabase.step db op) r1 hf1 hr1
        (fun a ha => hops a (List.mem_cons_of_mem _ ha))

/-- C3 witness: the amended theorem evaluated on a resolved row and a
sequence of operations not re-adding its id. -/
theorem C3_amended_no_unresolve_witness :
    ∃ r', findRow (AlertDatabase.run
        [{ id := "a1", alert_type := "fan", description := "d",
           timestamp := "t0", resolved := true }]
        [AlertOp.resolve "b1", AlertOp.getActive]) "a1" = some r' ∧
      r'.resolved = true :=
  C3_amended_no_unresolve _ _ _
    { id := "a1", alert_type := "fan", description := "d",
      timestamp := "t0", resolved := true }
    (by decide) (by decide)
    (by intro a ha; simp at ha)

/-- C7: adding a value already stored in the emails table (or the phones
table) returns false and leaves the database unchanged, in particular the
table's row count is unchanged. -/
theorem C7_duplicate_contact_rejected (db : ContactDB) (v : String) :
    ((∃ p ∈ db.emails.rows, p.2 = v) →
      ContactDatabase.add_email db v = (false, db) ∧
      (ContactDatabase.add_email db v).2.emails.rows.length =
        db.emails.rows.length) ∧
    ((∃ p ∈ db.phones.rows, p.2 = v) →
      ContactDatabase.add_phone db v = (false, db) ∧
      (ContactDatabase.add_phone db v).2.phones.rows.length =
        db.phones.rows.length) := by
  constructor
  · rintro ⟨p, hp, hv⟩
    have hany : db.emails.rows.any (fun q => decide (q.2 = v)) = true :=
      List.any_eq_true.mpr ⟨p, hp, by simp [hv]⟩
    unfold ContactDatabase.add_email ContactTable.insertUnique
    simp [hany]
  · rintro ⟨p, hp, hv⟩
    have hany : db.phones.rows.any (fun q => decide (q.2 = v)) = true :=
      List.any_eq_true.mpr ⟨p, hp, by simp [hv]⟩
    unfold ContactDatabase.add_phone ContactTable.insertUnique
    simp [hany]

/-- C7 witness: the theorem evaluated on a database already holding the
email and the phone being re-added. -/
theorem C7_duplicate_contact_rejected_witness :
    (ContactDatabase.add_email
        { emails := { rows := [(1, "a@b.com")], nextId := 2 },
          phones := { rows := [(1, "555")], nextId := 2 } } "a@b.com" =
      (false, { emails := { rows := [(1, "a@b.com")], nextId := 2 },
                phones := { rows := [(1, "555")], nextId := 2 } })) ∧
    (ContactDatabase.add_phone
        { emails := { rows := [(1, "a@b.com")], nextId := 2 },
          phones := { rows := [(1, "555")], nextId := 2 } } "555" =
      (false, { emails := { rows := [(1, "a@b.com")], nextId := 2 },
                phones := { rows := [(1, "555")], nextId := 2 } })) :=
  ⟨((C7_duplicate_contact_rejected
      { emails := { rows := [(1, "a@b.com")], nextId := 2 },
        phones := { rows := [(1, "555")], nextId := 2 } } "a@b.com").1
      ⟨(1, "a@b.com"), by decide, rfl⟩).1,
   ((C7_duplicate_contact_rejected
      { emails := { rows := [(1, "a@b.com")], nextId := 2 },
        phones := { rows := [(1, "555")], nextId := 2 } } "555").2
      ⟨(1, "555"), by decide, rfl⟩).1⟩

end Monitor
